import Mathlib

/-!
Verification of the spec of the `docs` repository: a static documentation
site whose only executable artifact is the site-configuration object in
`astro.config.mjs`, plus Markdown/MDX content files with YAML front-matter.
We embed the configuration object and the content files' metadata as Lean
data and prove the spec's claims about them.
-/

namespace Docs

/-- A sidebar navigation entry, as accepted by the documentation theme and
used in `astro.config.mjs`: a leaf `{label, link}` pair, a group
`{label, items}` holding nested entries, or a `{label, autogenerate: {directory}}`
entry. -/
inductive SidebarEntry where
  | link (label : String) (url : String) : SidebarEntry
  | group (label : String) (items : List SidebarEntry) : SidebarEntry
  | autogenerate (label : String) (directory : String) : SidebarEntry

/-- The `sidebar` array of `astro.config.mjs` (lines 14-65). -/
def sidebar : List SidebarEntry :=
  [ .group "Store"
      [ .link "Introduction" "store",
        .link "Actions" "store/actions",
        .link "Reading state" "store/reading-state",
        .link "Updating state" "store/updating-state",
        .link "Using features" "store/using-features",
        .link "Side effects" "store/side-effects" ],
    .group "Component Store"
      [ .link "Introduction" "component-store",
        .link "Reading state" "component-store/reading-state",
        .link "Updating state" "component-store/updating-state",
        .link "Side effects" "component-store/side-effects" ] ]

/-- The configuration object passed to the `starlight` integration in
`astro.config.mjs`. -/
structure StarlightConfig where
  title : String
  socialGithub : String
  sidebar : List SidebarEntry

/-- A build-time integration listed in the configuration; the source
enables exactly the `starlight` documentation theme. -/
inductive Integration where
  | starlight (cfg : StarlightConfig) : Integration

/-- The `image.service` field of the configuration. -/
structure ImageService where
  entrypoint : String

/-- The object passed to `defineConfig` in `astro.config.mjs`. -/
structure AstroConfig where
  site : String
  base : String
  integrations : List Integration
  image : ImageService

/-- The `starlight({...})` argument of `astro.config.mjs` (lines 9-66). -/
def starlightConfig : StarlightConfig :=
  { title := "Docs",
    socialGithub := "https://github.com/theo-matzavinos/docs",
    sidebar := sidebar }

/-- The configuration object exported by `astro.config.mjs`. -/
def astroConfig : AstroConfig :=
  { site := "https://theo-matzavinos.github.io",
    base := "/docs",
    integrations := [.starlight starlightConfig],
    image := { entrypoint := "astro/assets/services/sharp" } }

/-- Evaluation of the site-configuration module, shallowly embedded: the
module is a single declarative object literal with no inputs, no branching
and no failure path, so evaluating it is the constant successful
computation returning `astroConfig`. -/
def evalConfigModule : Unit → Except String AstroConfig :=
  fun _ => .ok astroConfig

mutual

/-- All entries of a sidebar subtree, the root included, at every nesting
level. -/
def SidebarEntry.allEntries : SidebarEntry → List SidebarEntry
  | .link l u => [.link l u]
  | .group l items => .group l items :: allEntriesOfList items
  | .autogenerate l d => [.autogenerate l d]

/-- All entries of a list of sidebar subtrees, at every nesting level. -/
def allEntriesOfList : List SidebarEntry → List SidebarEntry
  | [] => []
  | e :: es => e.allEntries ++ allEntriesOfList es

end

mutual

/-- The link values of the leaf entries of a sidebar subtree, in order. -/
def SidebarEntry.leafLinks : SidebarEntry → List String
  | .link _ u => [u]
  | .group _ items => leafLinksOfList items
  | .autogenerate _ _ => []

/-- The link values of the leaf entries of a list of subtrees, in order. -/
def leafLinksOfList : List SidebarEntry → List String
  | [] => []
  | e :: es => e.leafLinks ++ leafLinksOfList es

end

/-- Every entry of the sidebar tree of the configuration, at every
nesting level. -/
def allSidebarEntries : List SidebarEntry :=
  allEntriesOfList sidebar

/-- The link values of all leaf entries of the sidebar tree, in order. -/
def sidebarLinks : List String :=
  leafLinksOfList sidebar

/-- Whether an entry is a `{label, link}` pair. -/
def SidebarEntry.isLinkEntry : SidebarEntry → Bool
  | .link _ _ => true
  | _ => false

/-- Whether an entry is a `{label, items}` group. -/
def SidebarEntry.isGroupEntry : SidebarEntry → Bool
  | .group _ _ => true
  | _ => false

/-- Whether an entry is a `{label, autogenerate-directory}` entry. -/
def SidebarEntry.isAutogenEntry : SidebarEntry → Bool
  | .autogenerate _ _ => true
  | _ => false

/-- The label of a sidebar entry. -/
def SidebarEntry.label : SidebarEntry → String
  | .link l _ => l
  | .group l _ => l
  | .autogenerate l _ => l

/-- The (label, link) pairs of the immediate children of a group entry;
non-link children contribute nothing. -/
def SidebarEntry.childPairs : SidebarEntry → List (String × String)
  | .group _ items =>
      items.filterMap fun e =>
        match e with
        | .link l u => some (l, u)
        | _ => none
  | _ => []

/-- The immediate children of a group entry. -/
def SidebarEntry.children : SidebarEntry → List SidebarEntry
  | .group _ items => items
  | _ => []

/-- A content document of the repository: an identifier in the source
pack, its path under the content docs directory when the pack carries that
path, the route inferred from its front-matter when the path is unknown
(none when no route is inferred), and the key-value pairs of its YAML
front-matter block, in order. -/
structure ContentFile where
  name : String
  path : Option String
  inferredRoute : Option String
  frontmatter : List (String × String)

/-- The sixteen Markdown/MDX content documents carried by the source pack
with their front-matter, transcribed from the source. Five are carried
under their path in the content docs directory; the other eleven are
carried without a path (the five part files and six documents staged
alongside named files). For a document of unknown path whose front-matter
title and description identify it as one of the store or component-store
pages of the sidebar, that route is recorded as its inferred route. -/
def contentFiles : List ContentFile :=
  [ { name := "angular/standalone.mdx",
      path := some "angular/standalone.mdx",
      inferredRoute := none,
      frontmatter := [("title", "Angular standalone API"),
        ("description", "Using the Angular standalone API"),
        ("template", "doc")] },
    { name := "angular/standalone.mdx companion 1",
      path := none,
      inferredRoute := none,
      frontmatter := [("title", "Astro"),
        ("description", "Developing applications with Astro"),
        ("template", "doc")] },
    { name := "angular/standalone.mdx companion 2",
      path := none,
      inferredRoute := none,
      frontmatter := [("title", "Updating state"),
        ("description", "Component Store intro"),
        ("template", "doc")] },
    { name := "component-store/index.mdx",
      path := some "component-store/index.mdx",
      inferredRoute := none,
      frontmatter := [("title", "Introduction"),
        ("description", "Introduction to ComponentStore"),
        ("template", "doc")] },
    { name := "component-store/index.mdx companion 1",
      path := none,
      inferredRoute := some "component-store/side-effects",
      frontmatter := [("title", "Side effects"),
        ("description", "Running side effects using ComponentStore"),
        ("template", "doc")] },
    { name := "component-store/reading-state.mdx",
      path := some "component-store/reading-state.mdx",
      inferredRoute := none,
      frontmatter := [("title", "Reading state"),
        ("description", "Reading ComponentStore\x27s state"),
        ("template", "doc")] },
    { name := "component-store/updating-state.mdx",
      path := some "component-store/updating-state.mdx",
      inferredRoute := none,
      frontmatter := [("title", "Updating state"),
        ("description", "Updating ComponentStore\x27s state"),
        ("template", "doc")] },
    { name := "component-store/updating-state.mdx companion 1",
      path := none,
      inferredRoute := none,
      frontmatter := [("title", "Introduction"),
        ("description", "Component Store intro"),
        ("template", "doc")] },
    { name := "store/using-features.mdx",
      path := some "store/using-features.mdx",
      inferredRoute := none,
      frontmatter := [("title", "Using features"),
        ("description", "Using the createFeature function to reduce boilerplate"),
        ("template", "doc")] },
    { name := "store/using-features.mdx companion 1",
      path := none,
      inferredRoute := some "store/reading-state",
      frontmatter := [("title", "Reading state"),
        ("description", "Reading the Store\x27s state"),
        ("template", "doc")] },
    { name := "store/using-features.mdx companion 2",
      path := none,
      inferredRoute := some "store/actions",
      frontmatter := [("title", "Actions"),
        ("description", "Store actions"),
        ("template", "doc")] },
    { name := "part_000",
      path := none,
      inferredRoute := none,
      frontmatter := [("title", "Angular signals"),
        ("description", "Using the Angular signals API"),
        ("template", "doc")] },
    { name := "part_001",
      path := none,
      inferredRoute := none,
      frontmatter := [("title", "Query"),
        ("description", "Using @ngneat/query to manage http queries and mutations"),
        ("template", "doc")] },
    { name := "part_002",
      path := none,
      inferredRoute := none,
      frontmatter := [("title", "Project structure"),
        ("description", "Project structure"),
        ("template", "doc")] },
    { name := "part_003",
      path := none,
      inferredRoute := some "store/updating-state",
      frontmatter := [("title", "Updating state"),
        ("description", "Updating the Store\x27s state"),
        ("template", "doc")] },
    { name := "part_004",
      path := none,
      inferredRoute := some "store/side-effects",
      frontmatter := [("title", "Side effects"),
        ("description", "TBD"),
        ("template", "doc")] } ]

/-- Whether the string s begins with the string p, computed on the
character lists. -/
def strBeginsWith (s p : String) : Bool :=
  p.data.isPrefixOf s.data

/-- Whether the string s ends with the string p, computed on the character
lists. -/
def strEndsWith (s p : String) : Bool :=
  p.data.isSuffixOf s.data

/-- The string s with its last n characters removed. -/
def strDropRight (s : String) (n : Nat) : String :=
  ⟨s.data.take (s.data.length - n)⟩

/-- The route of a content file from its path under the content docs
directory: the `.mdx` extension is dropped and an index file maps to the
route of its directory. -/
def routeOfPath (p : String) : String :=
  let stem := if strEndsWith p ".mdx" then strDropRight p 4 else p
  if stem == "index" then ""
  else if strEndsWith stem "/index" then strDropRight stem 6
  else stem

/-- The route of a content document: computed from its path when the pack
carries the path, and its front-matter-inferred route otherwise. -/
def ContentFile.route (f : ContentFile) : Option String :=
  match f.path with
  | some p => some (routeOfPath p)
  | none => f.inferredRoute

/-- Modelled from the spec: the route of the one sidebar target whose
content document the source pack does not carry at all — the Store
introduction page at route store. The spec states that every sidebar link
resolves to an existing content page, so that document exists in the
repository. Every other sidebar target has a document in the pack. -/
def modelledContentRoutes : List String :=
  [ "store" ]

/-- The routes of the existing content documents: those of the documents
carried by the pack together with the spec-modelled one. -/
def contentRoutes : List String :=
  contentFiles.filterMap ContentFile.route ++ modelledContentRoutes

/-- The labels and immediate (label, link) child pairs of each top-level
sidebar entry, in order. -/
def sidebarShape : List (String × List (String × String)) :=
  sidebar.map fun e => (e.label, e.childPairs)

/-- C1: the leaf links reachable in the sidebar tree are exactly the ten
routes store, store/actions, store/reading-state, store/updating-state,
store/using-features, store/side-effects, component-store,
component-store/reading-state, component-store/updating-state and
component-store/side-effects, and every one of them equals the route of an
existing content document. -/
theorem sidebar_links_resolve :
    sidebarLinks =
      [ "store", "store/actions", "store/reading-state",
        "store/updating-state", "store/using-features", "store/side-effects",
        "component-store", "component-store/reading-state",
        "component-store/updating-state", "component-store/side-effects" ]
    ∧ sidebarLinks.all (fun l => contentRoutes.contains l) = true := by
  exact ⟨rfl, by decide⟩

/-- C2 counterexample: not every entry of the sidebar tree is a
`{label, link}` pair or a `{label, autogenerate-directory}` entry — the
first top-level entry is a `{label, items}` group, of neither shape. -/
theorem sidebar_entry_of_other_shape :
    allSidebarEntries.all (fun e => e.isLinkEntry || e.isAutogenEntry) = false
    ∧ (sidebar.map fun e =>
        (e.isGroupEntry, e.isLinkEntry, e.isAutogenEntry)).head? =
        some (true, false, false) := by
  exact ⟨by decide, rfl⟩

/-- C2 amended: every entry of the sidebar tree, at every nesting level, is
either a `{label, link}` pair or a `{label, items}` group of nested
entries; no autogenerate-directory entry (and no other shape) occurs. -/
theorem sidebar_entries_link_or_group :
    allSidebarEntries.all (fun e => e.isLinkEntry || e.isGroupEntry) = true
    ∧ allSidebarEntries.all (fun e => !(e.isAutogenEntry)) = true := by
  exact ⟨by decide, by decide⟩

/-- C3: the configuration object specifies the site URL
https://theo-matzavinos.github.io, the base path /docs, and non-empty
integrations and sidebar fields. -/
theorem config_declares_site_base_integrations_sidebar :
    astroConfig.site = "https://theo-matzavinos.github.io"
    ∧ astroConfig.base = "/docs"
    ∧ astroConfig.integrations ≠ []
    ∧ starlightConfig.sidebar ≠ [] := by
  exact ⟨rfl, rfl, List.cons_ne_nil _ _, List.cons_ne_nil _ _⟩

/-- C4: the sidebar consists of exactly two top-level groups, "Store" then
"Component Store", whose children are, in order, the listed labels each
mapped to exactly one route; and every child of the two groups is a single
`{label, link}` pair. -/
theorem sidebar_two_ordered_groups :
    sidebarShape =
      [ ("Store",
          [ ("Introduction", "store"), ("Actions", "store/actions"),
            ("Reading state", "store/reading-state"),
            ("Updating state", "store/updating-state"),
            ("Using features", "store/using-features"),
            ("Side effects", "store/side-effects") ]),
        ("Component Store",
          [ ("Introduction", "component-store"),
            ("Reading state", "component-store/reading-state"),
            ("Updating state", "component-store/updating-state"),
            ("Side effects", "component-store/side-effects") ]) ]
    ∧ sidebar.all (fun e => e.children.all (fun c => c.isLinkEntry)) = true := by
  exact ⟨rfl, by decide⟩

/-- C5: every content document of the repository begins with a front-matter
block defining all three of the fields title, description and template. -/
theorem frontmatter_has_title_description_template :
    contentFiles.all (fun f =>
      (f.frontmatter.map Prod.fst).contains "title"
      && (f.frontmatter.map Prod.fst).contains "description"
      && (f.frontmatter.map Prod.fst).contains "template") = true := by
  decide

/-- C6: the integrations list contains the starlight documentation theme as
its only element, and the image service entrypoint is the sharp service. -/
theorem integrations_starlight_and_sharp :
    astroConfig.integrations = [.starlight starlightConfig]
    ∧ astroConfig.image.entrypoint = "astro/assets/services/sharp" := by
  exact ⟨rfl, rfl⟩

/-- C7: evaluating the site-configuration module is total and
deterministic: on its (unique, trivial) input it always succeeds with the
configuration object and never reaches an error, and any two evaluations
agree. -/
theorem config_module_total_deterministic :
    ∀ u v : Unit,
      evalConfigModule u = Except.ok astroConfig
      ∧ evalConfigModule u = evalConfigModule v := by
  exact fun _ _ => ⟨rfl, rfl⟩

/-- C7 witness: the evaluation at the concrete (unique) input succeeds with
the configuration object and agrees with itself. -/
theorem config_module_total_deterministic_witness :
    evalConfigModule () = Except.ok astroConfig
    ∧ evalConfigModule () = evalConfigModule () :=
  config_module_total_deterministic () ()

/-- C8: the leaf link values of the sidebar tree are pairwise distinct, and
each is a relative route: none begins with "/" and none begins with a URL
scheme such as "http". -/
theorem sidebar_links_distinct_and_relative :
    sidebarLinks.Nodup
    ∧ sidebarLinks.all
        (fun l => !(strBeginsWith l "/") && !(strBeginsWith l "http")) = true := by
  exact ⟨by decide, by decide⟩

/-- C9: every content document sets the front-matter field template to the
value "doc", and no front-matter entry anywhere gives template any other
value. -/
theorem template_field_always_doc :
    contentFiles.all (fun f =>
      f.frontmatter.contains ("template", "doc")
      && f.frontmatter.all
          (fun kv => kv.fst != "template" || kv.snd == "doc")) = true := by
  decide

/-- C10: every leaf link of the group labeled "Store" equals "store" or
begins with "store/" and never carries the route head of the other group;
every leaf link of the group labeled "Component Store" equals
"component-store" or begins with "component-store/" and never carries the
route head of the other group; and every top-level group is one of these
two. -/
theorem group_links_confined_to_group_route :
    sidebar.all (fun e =>
      if e.label == "Store" then
        e.leafLinks.all (fun l =>
          (l == "store" || strBeginsWith l "store/")
          && !(l == "component-store" || strBeginsWith l "component-store/"))
      else if e.label == "Component Store" then
        e.leafLinks.all (fun l =>
          (l == "component-store" || strBeginsWith l "component-store/")
          && !(l == "store" || strBeginsWith l "store/"))
      else false) = true := by
  decide

end Docs
